import Mathlib

/-!
Verification of the CyberSentinel resilient gateway core: the bounded
in-memory domain store (`server/storage.ts`, class `MemStorage`) and the
operation handlers of `server/routes.ts` (ingest, cron, terminal,
credential rotation).  The store is embedded as a record of lists with
explicit state passing; route handlers are pure functions of the request,
the clock/uuid inputs and the remote-call outcome (`Except`).
-/

namespace CyberSentinel

/-- `AlertEntry` of storage.ts: one triaged alert record. -/
structure AlertEntry where
  id : Nat
  alert_id : String
  verdict : String
  risk_level : String
  source : String
  summary : String
  timestamp : String
  task_id : Option String
  deriving Repr, DecidableEq

/-- `CronJobEntry` of storage.ts. -/
structure CronJobEntry where
  id : String
  name : String
  schedule : String
  task : String
  squad : String
  enabled : Bool
  last_run : Option String
  next_run : Option String
  deriving Repr, DecidableEq

/-- `NodeEntry` of storage.ts. -/
structure NodeEntry where
  id : String
  name : String
  type : String
  status : String
  last_heartbeat : Option String
  alerts_processed : Nat
  ip : String
  deriving Repr, DecidableEq

/-- `GatewayEntry` of storage.ts (a notification channel). -/
structure GatewayEntry where
  id : String
  name : String
  type : String
  status : String
  enabled : Bool
  last_message : Option String
  messages_sent : Nat
  deriving Repr, DecidableEq

/-- The mutable fields of class `MemStorage` (the `users` map plays no role
in any claim and is omitted). -/
structure MemStorage where
  alerts : List AlertEntry
  cronJobs : List CronJobEntry
  nodes : List NodeEntry
  gateways : List GatewayEntry
  alertIdCounter : Nat
  deriving Repr, DecidableEq

/-- The `MemStorage` constructor: empty alerts and cron jobs, counter 1,
one seeded node and three seeded disconnected gateways.  `bootTime` stands
for `new Date().toISOString()` evaluated at construction. -/
def memInit (bootTime : String) : MemStorage :=
  { alerts := []
    cronJobs := []
    alertIdCounter := 1
    nodes := [{ id := "node-gateway", name := "Sovereign Gateway",
                type := "gateway", status := "online",
                last_heartbeat := some bootTime, alerts_processed := 0,
                ip := "127.0.0.1" }]
    gateways := [{ id := "gw-telegram", name := "Telegram", type := "telegram",
                   status := "disconnected", enabled := false,
                   last_message := none, messages_sent := 0 },
                 { id := "gw-discord", name := "Discord", type := "discord",
                   status := "disconnected", enabled := false,
                   last_message := none, messages_sent := 0 },
                 { id := "gw-slack", name := "Slack", type := "slack",
                   status := "disconnected", enabled := false,
                   last_message := none, messages_sent := 0 }] }

/-- `getAlerts(): return [...this.alerts].reverse();` — a reversed copy. -/
def getAlerts (s : MemStorage) : List AlertEntry := s.alerts.reverse

/-- `Omit<AlertEntry, "id">`: the argument of `addAlert`. -/
structure AlertInput where
  alert_id : String
  verdict : String
  risk_level : String
  source : String
  summary : String
  timestamp : String
  task_id : Option String
  deriving Repr, DecidableEq

/-- `{ ...alert, id }`: attach the assigned id to an alert input. -/
def AlertInput.withId (a : AlertInput) (i : Nat) : AlertEntry :=
  ⟨i, a.alert_id, a.verdict, a.risk_level, a.source, a.summary,
   a.timestamp, a.task_id⟩

/-- `addAlert`: push `{...alert, id: this.alertIdCounter++}`, then if the
array length exceeds 500, keep only the last 500 (`this.alerts.slice(-500)`).
Returns the stored entry together with the new store state. -/
def addAlert (s : MemStorage) (a : AlertInput) : AlertEntry × MemStorage :=
  let entry := a.withId s.alertIdCounter
  let pushed := s.alerts ++ [entry]
  let kept := if pushed.length > 500 then pushed.drop (pushed.length - 500) else pushed
  (entry, { s with alerts := kept, alertIdCounter := s.alertIdCounter + 1 })

/-- The record returned by `getStats`. -/
structure Stats where
  total_alerts : Nat
  true_positives : Nat
  false_positives : Nat
  pending : Nat
  active_cron_jobs : Nat
  active_nodes : Nat
  skills_loaded : Nat
  active_gateways : Nat
  deriving Repr, DecidableEq

/-- `getStats()`: derives the aggregate counts by filtering the current
collections.  The method body only reads `this`, so the state component of
the result is the unchanged store. -/
def getStats (s : MemStorage) : Stats × MemStorage :=
  (⟨s.alerts.length,
    (s.alerts.filter (fun a => a.verdict == "True Positive")).length,
    (s.alerts.filter (fun a => a.verdict == "False Positive")).length,
    (s.alerts.filter (fun a => a.verdict == "Pending" || a.verdict == "Unknown")).length,
    (s.cronJobs.filter (fun j => j.enabled)).length,
    (s.nodes.filter (fun n => n.status == "online")).length,
    0,
    (s.gateways.filter (fun g => g.status == "connected")).length⟩, s)

/-- `getCronJobs(): return this.cronJobs;` — the internal array itself. -/
def getCronJobs (s : MemStorage) : List CronJobEntry := s.cronJobs

/-- `Omit<CronJobEntry, "id" | "enabled" | "last_run" | "next_run">`. -/
structure CronJobInput where
  name : String
  schedule : String
  task : String
  squad : String
  deriving Repr, DecidableEq

/-- `addCronJob`: build the entry with id `cron-` plus a random token,
`enabled: true`, `last_run: null`, a computed `next_run`, and push it.
`uuidTok` stands for `randomUUID().slice(0, 8)` and `nextRun` for
`new Date(Date.now() + 3600000).toISOString()`.  No size cap is applied. -/
def addCronJob (s : MemStorage) (job : CronJobInput) (uuidTok nextRun : String) :
    CronJobEntry × MemStorage :=
  let entry : CronJobEntry :=
    ⟨"cron-" ++ uuidTok, job.name, job.schedule, job.task, job.squad,
     true, none, some nextRun⟩
  (entry, { s with cronJobs := s.cronJobs ++ [entry] })

/-- `this.cronJobs.find(j => j.id === id)` followed by an in-place flip of
`enabled` on the found object: the first entry whose id matches is replaced
by its flipped copy, everything else is untouched; if no entry matches the
list is returned unchanged and the result is `none` (JS `null`). -/
def toggleFirst (id : String) : List CronJobEntry → Option CronJobEntry × List CronJobEntry
  | [] => (none, [])
  | j :: js =>
    if j.id == id then
      let j' := { j with enabled := !j.enabled }
      (some j', j' :: js)
    else
      let p := toggleFirst id js
      (p.1, j :: p.2)

/-- `toggleCronJob(id)`: flip the first matching job in place and return it,
or return `null` when absent. -/
def toggleCronJob (s : MemStorage) (id : String) : Option CronJobEntry × MemStorage :=
  let p := toggleFirst id s.cronJobs
  (p.1, { s with cronJobs := p.2 })

/-- `deleteCronJob(id)`: `this.cronJobs = this.cronJobs.filter(j => j.id !== id);`
The method returns `void` — there is no not-found signal. -/
def deleteCronJob (s : MemStorage) (id : String) : MemStorage :=
  { s with cronJobs := s.cronJobs.filter (fun j => j.id != id) }

/-- `getNodes(): return this.nodes;` — the internal array itself. -/
def getNodes (s : MemStorage) : List NodeEntry := s.nodes

/-- `getGateways(): return this.gateways;` — the internal array itself. -/
def getGateways (s : MemStorage) : List GatewayEntry := s.gateways

/-- `this.gateways.find(g => g.id === id)` followed by an in-place status
assignment on the found object. -/
def setStatusFirst (id status : String) :
    List GatewayEntry → Option GatewayEntry × List GatewayEntry
  | [] => (none, [])
  | g :: gs =>
    if g.id == id then
      let g' := { g with status := status }
      (some g', g' :: gs)
    else
      let p := setStatusFirst id status gs
      (p.1, g :: p.2)

/-- `updateGatewayStatus(id, status)`: set the first matching gateway's
status in place and return it, or return `null` when absent. -/
def updateGatewayStatus (s : MemStorage) (id status : String) :
    Option GatewayEntry × MemStorage :=
  let p := setStatusFirst id status s.gateways
  (p.1, { s with gateways := p.2 })

/-! Route handlers of `server/routes.ts`.  Each handler is a pure function
of the request, of the non-deterministic inputs it reads (clock, random
token), and of the outcome of its single remote call, modelled as
`Except String payload` (`.error msg` is a thrown fetch/status error whose
`err.message` is `msg`). -/

/-- JS `||` on an optional string field: an absent (`undefined`) or empty
(falsy) value falls through to the default. -/
def jsOr (v : Option String) (d : String) : String :=
  match v with
  | none => d
  | some s => if s == "" then d else s

/-- The fields of `req.body` the ingest handler reads (each may be absent). -/
structure IngestRequest where
  alert_id : Option String
  source : Option String
  deriving Repr, DecidableEq

/-- The fields of a successful remote `/v1/ingest` response body the ingest
handler reads (each may be absent). -/
structure IngestRemoteData where
  status : Option String
  verdict : Option String
  risk_level : Option String
  message : Option String
  task_id : Option String
  deriving Repr, DecidableEq

/-- The JSON body the ingest handler sends back: either the remote body
echoed verbatim, or `{ error: err.message }`. -/
inductive IngestBody where
  | remote (d : IngestRemoteData)
  | error (msg : String)
  deriving Repr, DecidableEq

/-- An HTTP response of the ingest route: status code plus body. -/
structure IngestResponse where
  httpStatus : Nat
  body : IngestBody
  deriving Repr, DecidableEq

/-- The `POST /api/sentinel/ingest` handler (routes.ts).  On remote success
it records an alert whose verdict is `Pending` when `data.status === "queued"`
and otherwise `data.verdict || "Unknown"`, then echoes the remote body with
status 200.  On remote failure it records an `Error`-verdict alert whose
summary carries the failure reason, and responds 500 with an error body.
`now` stands for `new Date().toISOString()` and `dateNowTok` for the
`Date.now()` used in the default alert id. -/
def ingestRoute (s : MemStorage) (req : IngestRequest) (now dateNowTok : String)
    (remote : Except String IngestRemoteData) : IngestResponse × MemStorage :=
  match remote with
  | .ok d =>
    let s' := (addAlert s
      ⟨jsOr req.alert_id ("ALERT-" ++ dateNowTok),
       if d.status == some "queued" then "Pending" else jsOr d.verdict "Unknown",
       jsOr d.risk_level "Medium",
       jsOr req.source "custom",
       jsOr d.message "Alert submitted",
       now,
       d.task_id⟩).2
    (⟨200, .remote d⟩, s')
  | .error msg =>
    let s' := (addAlert s
      ⟨jsOr req.alert_id ("ALERT-" ++ dateNowTok),
       "Error",
       "Unknown",
       jsOr req.source "custom",
       "Submission error: " ++ msg,
       now,
       none⟩).2
    (⟨500, .error msg⟩, s')

/-- The body the cron-toggle route sends back in its fallback path:
`res.json(job || { error: "Job not found" })`. -/
inductive ToggleBody where
  | job (j : CronJobEntry)
  | err (msg : String)
  deriving Repr, DecidableEq

/-- The fallback path of `PATCH /api/sentinel/cron/:id/toggle` (remote call
failed): toggle locally; a missing id becomes a 200 response whose body is
`{ error: "Job not found" }`. -/
def toggleCronRoute (s : MemStorage) (id : String) :
    (Nat × ToggleBody) × MemStorage :=
  let p := toggleCronJob s id
  match p.1 with
  | some j => ((200, .job j), p.2)
  | none => ((200, .err "Job not found"), p.2)

/-- The response of `DELETE /api/sentinel/cron/:id`: the handler always ends
with `res.json({ status: "deleted" })`, whatever happened before. -/
structure DeleteResponse where
  httpStatus : Nat
  status : String
  deriving Repr, DecidableEq

/-- The fallback path of `DELETE /api/sentinel/cron/:id` (remote call
failed): delete locally, then respond `{ status: "deleted" }` — the same
response whether or not the id existed. -/
def deleteCronRoute (s : MemStorage) (id : String) :
    DeleteResponse × MemStorage :=
  (⟨200, "deleted"⟩, deleteCronJob s id)

/-- Fields the terminal handler reads from a successful `/v1/agents/run`
response: `data.result` (may be absent or empty) and, as an opaque string,
what `JSON.stringify(data)` would print. -/
structure AgentRunData where
  result : Option String
  stringified : String
  deriving Repr, DecidableEq

/-- The terminal route's response: always a JSON body with an `output`
field. -/
structure TermResponse where
  httpStatus : Nat
  output : String
  deriving Repr, DecidableEq

/-- JS `String.prototype.replace` with a string pattern replaces only the
first occurrence. -/
def replaceFirst (s pat : String) : String :=
  match s.splitOn pat with
  | [] => ""
  | [x] => x
  | x :: y :: rest => x ++ String.intercalate pat (y :: rest)

/-- The `POST /api/sentinel/terminal` handler (routes.ts).  `healthRemote`
is the outcome of the `/health` call made by `/status` (its payload already
serialized, standing for `JSON.stringify(health, null, 2)`); `agentRemote`
is the outcome of the `/v1/agents/run` call made by `/scan` and by the
free-text branch.  Every branch answers with `res.json({ output: ... })`,
i.e. HTTP 200. -/
def terminalRoute (command : String) (healthRemote : Except String String)
    (agentRemote : Except String AgentRunData) : TermResponse :=
  if command == "/status" then
    match healthRemote with
    | .ok h => ⟨200, h⟩
    | .error _ => ⟨200, "CyberSentinel backend is offline."⟩
  else if command.startsWith "/analyze " then
    let alertId := (replaceFirst command "/analyze ").trim
    ⟨200, "Queuing analysis for alert: " ++ alertId ++
          ". Use the Alert Feed to submit full alert data."⟩
  else if command.startsWith "/scan " then
    match agentRemote with
    | .ok d => ⟨200, jsOr d.result d.stringified⟩
    | .error e => ⟨200, "Scan failed: " ++ e⟩
  else
    match agentRemote with
    | .ok d => ⟨200, jsOr d.result d.stringified⟩
    | .error e => ⟨200, "Processing error: " ++ e ++
                        ". Is the CyberSentinel backend running?"⟩

/-! The credential cache of the updated routes module (`getApiKey` /
`refreshApiKey`): the only mutable global besides the store.  `env` stands
for the process-wide configuration value `process.env.APP_API_KEY ?? ""`. -/

/-- The module-level cell `_cachedApiKey`. -/
structure KeyCache where
  cached : Option String
  deriving Repr, DecidableEq

/-- `getApiKey()`: the guard is the JS falsy check `!_cachedApiKey`, so
both a null cell and a cached empty string count as a miss; on a miss the
process-wide configuration value is read, cached and returned, otherwise
the cached value is returned unchanged. -/
def getApiKey (env : String) (c : KeyCache) : String × KeyCache :=
  match c.cached with
  | some k => if k == "" then (env, ⟨some env⟩) else (k, c)
  | none => (env, ⟨some env⟩)

/-- `refreshApiKey()`: invalidate the cache (`_cachedApiKey = null`). -/
def refreshApiKey (_c : KeyCache) : KeyCache := ⟨none⟩

/-- The value `proxyToSentinel` attaches as the `X-API-KEY` header of an
outbound call, together with the cache state after the call. -/
def outboundKey (env : String) (c : KeyCache) : String × KeyCache :=
  getApiKey env c

/-- The body of the rotate route's response: either the remote body (kept
opaque) or `{ status: "error", message }`. -/
inductive RotateBody where
  | ok (d : String)
  | err (msg : String)
  deriving Repr, DecidableEq

/-- The `POST /api/settings/api-key/rotate` handler: on remote success it
calls `refreshApiKey()` and echoes the remote body; on failure it leaves
the cache alone and answers 200 with an error-status body. -/
def rotateRoute (c : KeyCache) (remote : Except String String) :
    (Nat × RotateBody) × KeyCache :=
  match remote with
  | .ok d => ((200, .ok d), refreshApiKey c)
  | .error e => ((200, .err e), c)

/-! Reference-level model of the getter methods, for the aliasing claim.
A JS array value is a heap reference; the store field holds a reference and
a getter returns either that same reference (`return this.cronJobs;`) or a
reference to a freshly allocated copy (`[...this.alerts].reverse()`).
`RefStore` keeps the heap as a list of cells addressed by index. -/

/-- Heap of array cells together with the address of the store's own
internal array (the `this.<field>` reference). -/
structure RefStore (α : Type) where
  heap : List (List α)
  storeRef : Nat
  deriving Repr

/-- Read the array held at an address. -/
def readRef : List (List α) → Nat → List α
  | [], _ => []
  | c :: _, 0 => c
  | _ :: h, n + 1 => readRef h n

/-- Overwrite the array held at an address. -/
def writeRef : List (List α) → Nat → List α → List (List α)
  | [], _, _ => []
  | _ :: h, 0, v => v :: h
  | c :: h, n + 1, v => c :: writeRef h n v

/-- The store's internal collection as observed through its own
reference. -/
def storeContents (st : RefStore α) : List α := readRef st.heap st.storeRef

/-- External mutation `arr.push(x)` performed by a caller on an array
reference it received. -/
def pushRef (st : RefStore α) (r : Nat) (x : α) : RefStore α :=
  { st with heap := writeRef st.heap r (readRef st.heap r ++ [x]) }

/-- `getCronJobs` at the reference level: `return this.cronJobs;` hands the
caller the store's own reference; no allocation happens.  (`getNodes` and
`getGateways` have literally the same shape.) -/
def getCronJobsRef (st : RefStore CronJobEntry) : Nat × RefStore CronJobEntry :=
  (st.storeRef, st)

/-- `getAlerts` at the reference level: `[...this.alerts].reverse()`
allocates a fresh array holding the reversed copy and hands the caller a
reference to that fresh cell. -/
def getAlertsRef (st : RefStore AlertEntry) : Nat × RefStore AlertEntry :=
  (st.heap.length, { st with heap := st.heap ++ [(readRef st.heap st.storeRef).reverse] })

/-! Iteration helpers and concrete scenario states used by the theorems. -/

/-- A sequence of `addAlert` calls, keeping only the final store state. -/
def addAlerts (s : MemStorage) (xs : List AlertInput) : MemStorage :=
  xs.foldl (fun t a => (addAlert t a).2) s

/-- The full history of entries the calls `addAlert` would create starting
from counter value `c`: the k-th input receives id `c + k`.  This is the
specification-side description of the id assignment; the store keeps only a
suffix of it. -/
def numberedFrom (c : Nat) : List AlertInput → List AlertEntry
  | [] => []
  | a :: rest => a.withId c :: numberedFrom (c + 1) rest

/-- A sequence of `addCronJob` calls (input, uuid token, next-run time). -/
def addCronJobs (s : MemStorage) (xs : List (CronJobInput × String × String)) :
    MemStorage :=
  xs.foldl (fun t x => (addCronJob t x.1 x.2.1 x.2.2).2) s

/-- The alert input the ingest handler records when the remote call fails
with message `fetch failed`, for the Scenario A/D request
`{alert_id: "A1", source: "custom"}`. -/
def scenarioFailInput : AlertInput :=
  ⟨"A1", "Error", "Unknown", "custom", "Submission error: fetch failed",
   "2026-01-01T00:00:00Z", none⟩

/-- One ingest request processed while the remote service is down. -/
def ingestFailStep (s : MemStorage) : MemStorage :=
  (ingestRoute s ⟨some "A1", some "custom"⟩ "2026-01-01T00:00:00Z"
    "1700000000000" (Except.error "fetch failed")).2

/-- `n` successive ingest requests against a fresh store while the remote
service is down (Scenario D). -/
def ingestFailTimes (t : String) : Nat → MemStorage
  | 0 => memInit t
  | n + 1 => ingestFailStep (ingestFailTimes t n)

/-- A concrete cron job used by the concrete-input theorems. -/
def jobSweep : CronJobEntry :=
  ⟨"cron-j1", "sweep", "daily", "scan", "blue", true, none, none⟩

/-- A reference-level store whose internal cron array is the (empty) cell
at address 0. -/
def cronRefStore : RefStore CronJobEntry := ⟨[[]], 0⟩

/-- A reference-level store whose internal alert array is the (empty) cell
at address 0. -/
def alertRefStore : RefStore AlertEntry := ⟨[[]], 0⟩

/-- A concrete alert entry used to probe external mutation. -/
def alertProbe : AlertEntry :=
  ⟨99, "X1", "Pending", "Low", "custom", "probe", "2026-01-01T00:00:00Z", none⟩

/-! Helper lemmas about the store operations. -/

theorem addAlert_alerts_eq (s : MemStorage) (a : AlertInput) :
    (addAlert s a).2.alerts
      = (s.alerts ++ [a.withId s.alertIdCounter]).drop (s.alerts.length + 1 - 500) := by
  simp only [addAlert]
  split
  · simp
  · next h =>
    have : s.alerts.length + 1 - 500 = 0 := by
      simp at h
      omega
    simp [this]

theorem addAlert_length (s : MemStorage) (a : AlertInput) :
    (addAlert s a).2.alerts.length = min (s.alerts.length + 1) 500 := by
  rw [addAlert_alerts_eq]
  simp
  omega

theorem addAlert_counter (s : MemStorage) (a : AlertInput) :
    (addAlert s a).2.alertIdCounter = s.alertIdCounter + 1 := rfl

theorem addAlert_getLast (s : MemStorage) (a : AlertInput) :
    (addAlert s a).2.alerts.getLast? = some (a.withId s.alertIdCounter) := by
  rw [addAlert_alerts_eq]
  rw [List.drop_append_eq_append_drop]
  have h : s.alerts.length + 1 - 500 - s.alerts.length = 0 := by omega
  rw [h]
  simp

theorem addAlerts_concat (s : MemStorage) (xs : List AlertInput) (a : AlertInput) :
    addAlerts s (xs ++ [a]) = (addAlert (addAlerts s xs) a).2 := by
  simp [addAlerts, List.foldl_append]

theorem addAlerts_counter (s : MemStorage) (xs : List AlertInput) :
    (addAlerts s xs).alertIdCounter = s.alertIdCounter + xs.length := by
  induction xs generalizing s with
  | nil => simp [addAlerts]
  | cons a xs ih =>
    show (addAlerts (addAlert s a).2 xs).alertIdCounter = _
    rw [ih, addAlert_counter, List.length_cons]
    omega

theorem numberedFrom_length (c : Nat) (xs : List AlertInput) :
    (numberedFrom c xs).length = xs.length := by
  induction xs generalizing c with
  | nil => rfl
  | cons a xs ih => simp [numberedFrom, ih]

theorem numberedFrom_concat (c : Nat) (xs : List AlertInput) (a : AlertInput) :
    numberedFrom c (xs ++ [a]) = numberedFrom c xs ++ [a.withId (c + xs.length)] := by
  induction xs generalizing c with
  | nil => simp [numberedFrom]
  | cons b xs ih =>
    have h : c + 1 + xs.length = c + (xs.length + 1) := by omega
    show b.withId c :: numberedFrom (c + 1) (xs ++ [a])
        = (b.withId c :: numberedFrom (c + 1) xs) ++ [a.withId (c + (xs.length + 1))]
    rw [ih, h, List.cons_append]

theorem drop_drop_concat {β : Type} (E : List β) (e : β) (D k : Nat)
    (hk : k ≤ E.length - D) :
    List.drop k (List.drop D E ++ [e]) = List.drop (D + k) E ++ [e] := by
  have hlen : (List.drop D E).length = E.length - D := List.length_drop D E
  have h1 : k - (E.length - D) = 0 := by omega
  rw [List.drop_append_eq_append_drop, List.drop_drop, hlen, h1, List.drop_zero]

theorem drop_concat_of_le {β : Type} (E : List β) (e : β) (D : Nat)
    (hD : D ≤ E.length) :
    List.drop D (E ++ [e]) = List.drop D E ++ [e] := by
  rw [List.drop_append_eq_append_drop]
  have h1 : D - E.length = 0 := by omega
  rw [h1, List.drop_zero]

theorem addAlerts_alerts (t : String) (xs : List AlertInput) :
    (addAlerts (memInit t) xs).alerts
      = (numberedFrom 1 xs).drop (xs.length - 500) := by
  induction xs using List.reverseRecOn with
  | nil => rfl
  | append_singleton xs a ih =>
    rw [addAlerts_concat, addAlert_alerts_eq, numberedFrom_concat, ih]
    have hc : (addAlerts (memInit t) xs).alertIdCounter = 1 + xs.length := by
      rw [addAlerts_counter]
      simp [memInit]
    rw [hc]
    have hE : (numberedFrom 1 xs).length = xs.length := numberedFrom_length 1 xs
    have hlen : ((numberedFrom 1 xs).drop (xs.length - 500)).length
        = xs.length - (xs.length - 500) := by
      rw [List.length_drop, numberedFrom_length]
    rw [hlen]
    have hk : xs.length - (xs.length - 500) + 1 - 500
        ≤ (numberedFrom 1 xs).length - (xs.length - 500) := by
      rw [hE]; omega
    rw [drop_drop_concat _ _ _ _ hk]
    have hD : (xs ++ [a]).length - 500 ≤ (numberedFrom 1 xs).length := by
      rw [hE, List.length_append, List.length_singleton]; omega
    rw [drop_concat_of_le _ _ _ hD]
    have hidx : xs.length - 500 + (xs.length - (xs.length - 500) + 1 - 500)
        = (xs ++ [a]).length - 500 := by
      rw [List.length_append, List.length_singleton]; omega
    rw [hidx]

theorem addAlerts_length (t : String) (xs : List AlertInput) :
    (addAlerts (memInit t) xs).alerts.length = min xs.length 500 := by
  rw [addAlerts_alerts, List.length_drop, numberedFrom_length]
  omega

theorem mem_numberedFrom_id (c : Nat) (xs : List AlertInput) :
    ∀ e ∈ numberedFrom c xs, c ≤ e.id := by
  induction xs generalizing c with
  | nil => intro e he; simp [numberedFrom] at he
  | cons a xs ih =>
    intro e he
    rcases List.mem_cons.mp he with rfl | he
    · exact Nat.le_refl c
    · exact Nat.le_of_succ_le (ih (c + 1) e he)

theorem numberedFrom_ids_pairwise (c : Nat) (xs : List AlertInput) :
    ((numberedFrom c xs).map AlertEntry.id).Pairwise (· < ·) := by
  induction xs generalizing c with
  | nil => simp [numberedFrom]
  | cons a xs ih =>
    simp only [numberedFrom, List.map_cons, List.pairwise_cons]
    refine ⟨?_, ih (c + 1)⟩
    intro y hy
    rcases List.mem_map.mp hy with ⟨e, he, rfl⟩
    have := mem_numberedFrom_id (c + 1) xs e he
    simpa [AlertInput.withId] using Nat.lt_of_succ_le this

theorem alerts_ids_pairwise (t : String) (xs : List AlertInput) :
    ((addAlerts (memInit t) xs).alerts.map AlertEntry.id).Pairwise (· < ·) := by
  rw [addAlerts_alerts]
  have hsub : List.Sublist
      (((numberedFrom 1 xs).drop (xs.length - 500)).map AlertEntry.id)
      ((numberedFrom 1 xs).map AlertEntry.id) :=
    List.Sublist.map AlertEntry.id (List.drop_sublist _ _)
  exact List.Pairwise.sublist hsub (numberedFrom_ids_pairwise 1 xs)

theorem ingestFailStep_eq (s : MemStorage) :
    ingestFailStep s = (addAlert s scenarioFailInput).2 := rfl

theorem ingestFailTimes_eq (t : String) (n : Nat) :
    ingestFailTimes t n = addAlerts (memInit t) (List.replicate n scenarioFailInput) := by
  induction n with
  | zero => rfl
  | succ n ih =>
    show ingestFailStep (ingestFailTimes t n) = _
    rw [ih, ingestFailStep_eq, List.replicate_succ', addAlerts_concat]

theorem addCronJob_length (s : MemStorage) (j : CronJobInput) (u n : String) :
    (addCronJob s j u n).2.cronJobs.length = s.cronJobs.length + 1 := by
  simp [addCronJob]

theorem addCronJobs_length (s : MemStorage) (xs : List (CronJobInput × String × String)) :
    (addCronJobs s xs).cronJobs.length = s.cronJobs.length + xs.length := by
  induction xs generalizing s with
  | nil => simp [addCronJobs]
  | cons x xs ih =>
    show (addCronJobs (addCronJob s x.1 x.2.1 x.2.2).2 xs).cronJobs.length = _
    rw [ih, addCronJob_length, List.length_cons]
    omega

theorem toggleFirst_none (id : String) (l : List CronJobEntry)
    (h : ∀ k ∈ l, (k.id == id) = false) : toggleFirst id l = (none, l) := by
  induction l with
  | nil => rfl
  | cons j l ih =>
    have hj := h j (List.mem_cons_self j l)
    have ihl := ih (fun k hk => h k (List.mem_cons_of_mem j hk))
    simp [toggleFirst, hj, ihl]

theorem setStatusFirst_none (id status : String) (l : List GatewayEntry)
    (h : ∀ k ∈ l, (k.id == id) = false) : setStatusFirst id status l = (none, l) := by
  induction l with
  | nil => rfl
  | cons g l ih =>
    have hg := h g (List.mem_cons_self g l)
    have ihl := ih (fun k hk => h k (List.mem_cons_of_mem g hk))
    simp [setStatusFirst, hg, ihl]

theorem toggleFirst_found (pre : List CronJobEntry) (j : CronJobEntry)
    (post : List CronJobEntry) (id : String)
    (hpre : ∀ k ∈ pre, (k.id == id) = false) (hj : (j.id == id) = true) :
    toggleFirst id (pre ++ j :: post)
      = (some { j with enabled := !j.enabled },
         pre ++ { j with enabled := !j.enabled } :: post) := by
  induction pre with
  | nil => simp [toggleFirst, hj]
  | cons k pre ih =>
    have hk := hpre k (List.mem_cons_self k pre)
    have ihp := ih (fun x hx => hpre x (List.mem_cons_of_mem k hx))
    simp [toggleFirst, hk, ihp]

theorem mem_filter_ne (l : List CronJobEntry) (id : String) :
    ∀ k ∈ l.filter (fun j => j.id != id), (k.id == id) = false := by
  intro k hk
  have := (List.mem_filter.mp hk).2
  simpa [bne] using this

theorem pending_filter_split (l : List AlertEntry) :
    (l.filter (fun a => a.verdict == "Pending" || a.verdict == "Unknown")).length
      = (l.filter (fun a => a.verdict == "Pending")).length
        + (l.filter (fun a => a.verdict == "Unknown")).length := by
  induction l with
  | nil => rfl
  | cons a l ih =>
    cases hb1 : a.verdict == "Pending" <;> cases hb2 : a.verdict == "Unknown"
    · simp [List.filter_cons, hb1, hb2, ih]
    · simp [List.filter_cons, hb1, hb2, ih]; omega
    · simp [List.filter_cons, hb1, hb2, ih]; omega
    · exfalso
      have h1 : a.verdict = "Pending" := by simpa using hb1
      have h2 : a.verdict = "Unknown" := by simpa using hb2
      rw [h1] at h2
      simp at h2

theorem readRef_writeRef_ne {α : Type} (h : List (List α)) (r r' : Nat)
    (v : List α) (hne : r ≠ r') : readRef (writeRef h r v) r' = readRef h r' := by
  induction h generalizing r r' with
  | nil => rfl
  | cons c h ih =>
    cases r with
    | zero =>
      cases r' with
      | zero => exact absurd rfl hne
      | succ r' => rfl
    | succ r =>
      cases r' with
      | zero => rfl
      | succ r' => exact ih r r' (fun he => hne (by rw [he]))

theorem readRef_append_self {α : Type} (h : List (List α)) (v : List α) :
    readRef (h ++ [v]) h.length = v := by
  induction h with
  | nil => rfl
  | cons c h ih => exact ih

theorem readRef_append_lt {α : Type} (h : List (List α)) (v : List α) (r : Nat)
    (hr : r < h.length) : readRef (h ++ [v]) r = readRef h r := by
  induction h generalizing r with
  | nil => simp at hr
  | cons c h ih =>
    cases r with
    | zero => rfl
    | succ r => exact ih r (by simpa using hr)

/-! Claim theorems. -/

/-- C2. For every sequence of N `addAlert` calls to a fresh store,
`getAlerts` returns exactly the surviving suffix of the numbered insertion
history in reverse — most-recently-inserted first — with exactly
`min N 500` entries; the store never holds more than 500 entries, and on
overflow the first `N − 500` entries of the history (the oldest, by
insertion order) are dropped from the store and hence unrecoverable. -/
theorem alerts_capacity_order (t : String) (xs : List AlertInput) :
    getAlerts (addAlerts (memInit t) xs)
        = ((numberedFrom 1 xs).drop (xs.length - 500)).reverse
      ∧ (getAlerts (addAlerts (memInit t) xs)).length = min xs.length 500
      ∧ (addAlerts (memInit t) xs).alerts.length ≤ 500 := by
  refine ⟨?_, ?_, ?_⟩
  · show (addAlerts (memInit t) xs).alerts.reverse = _
    rw [addAlerts_alerts]
  · show (addAlerts (memInit t) xs).alerts.reverse.length = _
    rw [List.length_reverse, addAlerts_length]
  · rw [addAlerts_length]; omega

/-- C10. `getStats` reports `pending` as the number of alerts whose verdict
is `Pending` or `Unknown` — the sum of the two disjoint per-verdict counts,
not the `Pending` count alone — always reports `skills_loaded = 0`, and
leaves the store unchanged. -/
theorem getStats_pending_unknown (s : MemStorage) :
    (getStats s).1.pending
        = (s.alerts.filter (fun a => a.verdict == "Pending")).length
          + (s.alerts.filter (fun a => a.verdict == "Unknown")).length
      ∧ (getStats s).1.skills_loaded = 0
      ∧ (getStats s).2 = s :=
  ⟨pending_filter_split s.alerts, rfl, rfl⟩

/-- C3 counterexample: the cron-job collection admits no finite bound.
`addCronJob` applies no size cap, so for every candidate bound `B` a
sequence of `B + 1` insertions into a fresh store exceeds it.  This negates
the claim that every append-type operation of the store enforces a per-kind
size cap keeping the cron-job collection within a fixed finite bound. -/
theorem cron_jobs_unbounded :
    ¬ ∃ B : Nat, ∀ xs : List (CronJobInput × String × String),
        (addCronJobs (memInit "t0") xs).cronJobs.length ≤ B := by
  rintro ⟨B, hB⟩
  have h := hB (List.replicate (B + 1)
    (⟨"sweep", "daily", "scan", "blue"⟩, "deadbeef", "2026-01-01T01:00:00Z"))
  rw [addCronJobs_length, List.length_replicate] at h
  have h2 : (memInit "t0").cronJobs.length = 0 := rfl
  rw [h2] at h
  omega

/-- C3 (amended): only the alert collection is capped — `addAlert` keeps at
most 500 entries, evicting the oldest — while `addCronJob` appends
unconditionally, growing the cron-job collection by exactly one on every
call, so N calls to a fresh store leave N jobs (nodes and gateways have no
local append operation at all). -/
theorem append_cap_alerts_only (s : MemStorage) (a : AlertInput)
    (j : CronJobInput) (u n t : String)
    (xs : List (CronJobInput × String × String)) :
    (addAlert s a).2.alerts.length = min (s.alerts.length + 1) 500
      ∧ (addAlert s a).2.alerts.length ≤ 500
      ∧ (addCronJob s j u n).2.cronJobs.length = s.cronJobs.length + 1
      ∧ (addCronJobs (memInit t) xs).cronJobs.length = xs.length := by
  refine ⟨addAlert_length s a, ?_, addCronJob_length s j u n, ?_⟩
  · rw [addAlert_length]; omega
  · rw [addCronJobs_length]
    have h2 : (memInit t).cronJobs.length = 0 := rfl
    rw [h2]
    omega

/-- C5. On a successful rotation the handler invalidates the cached
credential, so the next outbound call attaches the value read anew from the
process-wide configuration; a cache that still held an old non-empty value
(one the falsy guard `!_cachedApiKey` does not treat as a miss) would
instead have supplied that cached value, and a failed rotation leaves the
cache untouched. -/
theorem rotate_invalidates_cache (c : KeyCache) (d env : String) :
    (rotateRoute c (Except.ok d)).2 = ⟨none⟩
      ∧ (outboundKey env (rotateRoute c (Except.ok d)).2).1 = env
      ∧ (∀ k, c.cached = some k → k ≠ "" → (outboundKey env c).1 = k)
      ∧ (rotateRoute c (Except.error d)).2 = c := by
  refine ⟨rfl, rfl, ?_, rfl⟩
  intro k hk hne
  simp [outboundKey, getApiKey, hk, hne]

/-- Witness for C5 at a concrete cache holding an old non-empty
credential: after a successful rotation the fresh configuration value is
attached, while the stale cache would have supplied the old one. -/
theorem rotate_invalidates_cache_witness :
    (outboundKey "fresh-key" (rotateRoute ⟨some "old-key"⟩ (Except.ok "rotated")).2).1
        = "fresh-key"
      ∧ (outboundKey "fresh-key" (⟨some "old-key"⟩ : KeyCache)).1 = "old-key" :=
  ⟨(rotate_invalidates_cache ⟨some "old-key"⟩ "rotated" "fresh-key").2.1,
   (rotate_invalidates_cache ⟨some "old-key"⟩ "rotated" "fresh-key").2.2.1
     "old-key" rfl (by decide)⟩

/-- C7. Alert ids are strictly increasing in insertion order within one
store instance and are never reused: the full insertion history carries
pairwise strictly increasing ids, and so does the surviving collection
after any sequence of inserts.  In Scenario D — 501 successive ingests
while the remote is down — the store reports `total_alerts = 500`, the
surviving ids are still strictly increasing, and the lowest surviving id
(the head in insertion order) is 2, the id the 2nd ingested alert received;
the 1st, with id 1, was evicted. -/
theorem alert_ids_increasing (t : String) (xs : List AlertInput) :
    ((addAlerts (memInit t) xs).alerts.map AlertEntry.id).Pairwise (· < ·)
      ∧ ((numberedFrom 1 xs).map AlertEntry.id).Pairwise (· < ·)
      ∧ (getStats (ingestFailTimes t 501)).1.total_alerts = 500
      ∧ ((ingestFailTimes t 501).alerts.map AlertEntry.id).head? = some 2
      ∧ ((ingestFailTimes t 501).alerts.map AlertEntry.id).Pairwise (· < ·) := by
  refine ⟨alerts_ids_pairwise t xs, numberedFrom_ids_pairwise 1 xs, ?_, ?_, ?_⟩
  · have hstats : ∀ s : MemStorage, (getStats s).1.total_alerts = s.alerts.length :=
      fun s => rfl
    rw [hstats, ingestFailTimes_eq, addAlerts_length, List.length_replicate]
    omega
  · rw [ingestFailTimes_eq, addAlerts_alerts, List.length_replicate]
    have e2 : (501 : Nat) - 500 = 1 := by norm_num
    have e1 : (501 : Nat) = 499 + 1 + 1 := by norm_num
    rw [e2, e1, List.replicate_succ, List.replicate_succ]
    rfl
  · rw [ingestFailTimes_eq]
    exact alerts_ids_pairwise t (List.replicate 501 scenarioFailInput)

/-- C1 counterexample: at a full store the alert count does not grow.
After 500 ingests against a fresh store (remote down) the store holds 500
alerts; the 501st ingest still appends its entry but evicts the oldest, so
`count_after` is 500, not `count_before + 1` — refuting the claim's
`count_after = count_before + 1` for every ingest under both outcomes. -/
theorem ingest_count_cex :
    (ingestFailTimes "t0" 500).alerts.length = 500
      ∧ (ingestFailStep (ingestFailTimes "t0" 500)).alerts.length = 500
      ∧ ¬ ((ingestFailStep (ingestFailTimes "t0" 500)).alerts.length
            = (ingestFailTimes "t0" 500).alerts.length + 1) := by
  have h1 : (ingestFailTimes "t0" 500).alerts.length = 500 := by
    rw [ingestFailTimes_eq, addAlerts_length, List.length_replicate]
    omega
  have h2 : (ingestFailStep (ingestFailTimes "t0" 500)).alerts.length = 500 := by
    show (ingestFailTimes "t0" 501).alerts.length = 500
    rw [ingestFailTimes_eq, addAlerts_length, List.length_replicate]
    omega
  exact ⟨h1, h2, by rw [h1, h2]; omega⟩

/-- C1 (amended). For every ingest request against a store holding fewer
than 500 alerts, exactly one new AlertEntry is recorded whether the remote
call succeeds or fails (`count_after = count_before + 1`; at 500 entries
one entry is still appended but the oldest is evicted, so the count stays
500).  On remote failure the recorded entry has verdict `Error` with a
summary containing the failure reason and the response is a 500 whose body
is the error field; on remote success with status `queued` the recorded
entry has verdict `Pending` and carries the remote task id, and the remote
body is echoed with status 200. -/
theorem ingest_dual_record (s : MemStorage) (req : IngestRequest)
    (now tok e : String) (d : IngestRemoteData)
    (h : s.alerts.length < 500) :
    ((ingestRoute s req now tok (Except.error e)).2.alerts.length
        = s.alerts.length + 1)
      ∧ ((ingestRoute s req now tok (Except.ok d)).2.alerts.length
        = s.alerts.length + 1)
      ∧ ((ingestRoute s req now tok (Except.error e)).2.alerts.getLast?
        = some ⟨s.alertIdCounter, jsOr req.alert_id ("ALERT-" ++ tok),
                "Error", "Unknown", jsOr req.source "custom",
                "Submission error: " ++ e, now, none⟩)
      ∧ ((ingestRoute s req now tok (Except.error e)).1
        = ⟨500, IngestBody.error e⟩)
      ∧ (d.status = some "queued" →
          (ingestRoute s req now tok (Except.ok d)).2.alerts.getLast?
            = some ⟨s.alertIdCounter, jsOr req.alert_id ("ALERT-" ++ tok),
                    "Pending", jsOr d.risk_level "Medium",
                    jsOr req.source "custom", jsOr d.message "Alert submitted",
                    now, d.task_id⟩)
      ∧ ((ingestRoute s req now tok (Except.ok d)).1
        = ⟨200, IngestBody.remote d⟩) := by
  refine ⟨?_, ?_, ?_, rfl, ?_, rfl⟩
  · show (addAlert s _).2.alerts.length = _
    rw [addAlert_length]; omega
  · show (addAlert s _).2.alerts.length = _
    rw [addAlert_length]; omega
  · exact addAlert_getLast s _
  · intro hq
    show (addAlert s _).2.alerts.getLast? = _
    rw [addAlert_getLast]
    have hc : (d.status == some "queued") = true := by simp [hq]
    simp [AlertInput.withId, hc]

/-- Witness for C1 (amended) at the fresh store: the first ingest with the
remote down grows the alert count from 0 to 1. -/
theorem ingest_dual_record_witness :
    (ingestRoute (memInit "t0") ⟨some "A1", some "custom"⟩
        "2026-01-01T00:00:00Z" "1700000000000"
        (Except.error "down")).2.alerts.length
      = (memInit "t0").alerts.length + 1 :=
  (ingest_dual_record (memInit "t0") ⟨some "A1", some "custom"⟩
    "2026-01-01T00:00:00Z" "1700000000000" "down"
    ⟨some "queued", none, none, none, some "T1"⟩ (by decide)).1

/-- C4 counterexample: `deleteCronJob` produces no not-found signal.  With
a store holding the job `cron-j1`, deleting it and then deleting the same
(now absent) id again yields exactly the `{status:"deleted"}` success
response of the first deletion — not a NotFound outcome — while the toggle
route, by contrast, does answer `Job not found` for the absent id. -/
theorem delete_no_notfound_cex :
    (deleteCronRoute ((deleteCronRoute
          { memInit "t0" with cronJobs := [jobSweep] } "cron-j1").2)
        "cron-j1").1
      = (deleteCronRoute { memInit "t0" with cronJobs := [jobSweep] }
          "cron-j1").1
      ∧ (deleteCronRoute ((deleteCronRoute
          { memInit "t0" with cronJobs := [jobSweep] } "cron-j1").2)
        "cron-j1").1.status = "deleted"
      ∧ (toggleCronRoute ((deleteCronRoute
          { memInit "t0" with cronJobs := [jobSweep] } "cron-j1").2)
        "cron-j1").1
      = (200, ToggleBody.err "Job not found") := by
  refine ⟨rfl, rfl, ?_⟩
  decide

/-- C4 (amended). For ids absent from the respective collection,
`toggleCronJob` and `updateGatewayStatus` return an explicit `null`
not-found signal and leave the store unchanged, and no operation throws;
`deleteCronJob`, however, is void and silently succeeds — deleting an
already-deleted id is a no-op answered by the same `{status:"deleted"}`
response — while a toggle after a delete of the same id does yield the
`null` signal. -/
theorem absent_id_signals (s : MemStorage) (id status : String) :
    (s.cronJobs.find? (fun j => j.id == id) = none →
        toggleCronJob s id = (none, s))
      ∧ (s.gateways.find? (fun g => g.id == id) = none →
        updateGatewayStatus s id status = (none, s))
      ∧ (toggleCronJob (deleteCronJob s id) id).1 = none
      ∧ deleteCronJob (deleteCronJob s id) id = deleteCronJob s id
      ∧ (deleteCronRoute (deleteCronJob s id) id).1 = ⟨200, "deleted"⟩ := by
  refine ⟨?_, ?_, ?_, ?_, rfl⟩
  · intro h
    have h' : ∀ k ∈ s.cronJobs, (k.id == id) = false := by
      intro k hk
      simpa using List.find?_eq_none.mp h k hk
    simp [toggleCronJob, toggleFirst_none id s.cronJobs h']
  · intro h
    have h' : ∀ k ∈ s.gateways, (k.id == id) = false := by
      intro k hk
      simpa using List.find?_eq_none.mp h k hk
    simp [updateGatewayStatus, setStatusFirst_none id status s.gateways h']
  · simp [deleteCronJob, toggleCronJob,
      toggleFirst_none id _ (mem_filter_ne s.cronJobs id)]
  · simp [deleteCronJob, List.filter_filter]

/-- Witness for C4 (amended) at a fresh store, whose collections do not
contain the id `ghost`. -/
theorem absent_id_signals_witness :
    toggleCronJob (memInit "t0") "ghost" = (none, memInit "t0")
      ∧ updateGatewayStatus (memInit "t0") "ghost" "connected"
        = (none, memInit "t0") :=
  ⟨(absent_id_signals (memInit "t0") "ghost" "connected").1 (by decide),
   (absent_id_signals (memInit "t0") "ghost" "connected").2.1 (by decide)⟩

/-- C8. For a job present in the store (first match for its id),
`toggleCronJob` flips exactly that job's `enabled` flag — returning the
updated job and leaving every other field and every other job unchanged —
and toggling the same id a second time returns the original job and
restores the original store: double toggle is the identity. -/
theorem toggle_flip_double (base : MemStorage) (pre post : List CronJobEntry)
    (j : CronJobEntry) (id : String)
    (hpre : ∀ k ∈ pre, (k.id == id) = false) (hj : (j.id == id) = true) :
    toggleCronJob { base with cronJobs := pre ++ j :: post } id
        = (some { j with enabled := !j.enabled },
           { base with cronJobs := pre ++ { j with enabled := !j.enabled } :: post })
      ∧ toggleCronJob
          { base with cronJobs := pre ++ { j with enabled := !j.enabled } :: post } id
        = (some j, { base with cronJobs := pre ++ j :: post }) := by
  obtain ⟨ji, jn, jsch, jt, jsq, je, jl, jr⟩ := j
  constructor
  · simp [toggleCronJob, toggleFirst_found pre _ post id hpre hj]
  · have h2 := toggleFirst_found pre
      ⟨ji, jn, jsch, jt, jsq, !je, jl, jr⟩ post id hpre hj
    simp only [Bool.not_not] at h2
    simp [toggleCronJob, h2]

/-- Witness for C8 at a store holding the single enabled job `cron-j1`:
the first toggle disables it. -/
theorem toggle_flip_double_witness :
    (toggleCronJob { memInit "t0" with cronJobs := [jobSweep] } "cron-j1").1
      = some { jobSweep with enabled := !jobSweep.enabled } :=
  congrArg Prod.fst
    (toggle_flip_double (memInit "t0") [] [] jobSweep "cron-j1"
      (by intro k hk; exact absurd hk (List.not_mem_nil k)) (by decide)).1

/-- C9. Every terminal request is answered with HTTP status 200 and a
textual `output` field — for the recognized prefixes `/status`,
`/analyze <id>` and `/scan <target>`, for free text forwarded to the
default squad, and when the remote call fails, in which case the failure is
rendered as one of the fixed human-readable error lines in `output`, never
as an HTTP error status. -/
theorem terminal_always_200 (cmd : String) (hr : Except String String)
    (ar : Except String AgentRunData) :
    (terminalRoute cmd hr ar).httpStatus = 200
      ∧ (∀ e1 e2 : String,
          (terminalRoute cmd (Except.error e1) (Except.error e2)).output
            ∈ ["CyberSentinel backend is offline.",
               "Queuing analysis for alert: "
                 ++ (replaceFirst cmd "/analyze ").trim
                 ++ ". Use the Alert Feed to submit full alert data.",
               "Scan failed: " ++ e2,
               "Processing error: " ++ e2
                 ++ ". Is the CyberSentinel backend running?"]) := by
  constructor
  · unfold terminalRoute
    split_ifs <;>
      first
        | rfl
        | (cases hr <;> rfl)
        | (cases ar <;> rfl)
  · intro e1 e2
    unfold terminalRoute
    split_ifs <;> simp

/-- C6 counterexample: `getCronJobs` hands out the store's own array
reference, so a caller-side push through the returned reference mutates the
store.  On a store whose internal cron array is empty, pushing one job onto
the value returned by `getCronJobs` makes the store's own collection
non-empty — refuting the claim that every list-type read returns a copy
whose mutation leaves the store unchanged. -/
theorem live_reference_cex :
    storeContents (pushRef (getCronJobsRef cronRefStore).2
        (getCronJobsRef cronRefStore).1 jobSweep) = [jobSweep]
      ∧ storeContents cronRefStore = []
      ∧ storeContents (pushRef (getCronJobsRef cronRefStore).2
          (getCronJobsRef cronRefStore).1 jobSweep)
        ≠ storeContents cronRefStore := by
  refine ⟨rfl, rfl, ?_⟩
  decide

/-- C6 (amended). Only `getAlerts` returns a copy: it allocates a fresh
array holding the reversed snapshot of the internal collection, so pushing
onto the returned array never changes the store; `getCronJobs` — and
`getNodes` and `getGateways`, which have literally the same body shape —
instead return the store's internal array reference itself, through which
external mutation reaches the store. -/
theorem getAlerts_copy_only (st : RefStore AlertEntry) (x : AlertEntry)
    (h : st.storeRef < st.heap.length) :
    storeContents (pushRef (getAlertsRef st).2 (getAlertsRef st).1 x)
        = storeContents st
      ∧ readRef (getAlertsRef st).2.heap (getAlertsRef st).1
        = (storeContents st).reverse
      ∧ (∀ stc : RefStore CronJobEntry, getCronJobsRef stc = (stc.storeRef, stc)) := by
  refine ⟨?_, ?_, fun stc => rfl⟩
  · simp only [pushRef, getAlertsRef, storeContents]
    rw [readRef_writeRef_ne _ _ _ _ (Nat.ne_of_gt h),
      readRef_append_lt _ _ _ h]
  · simp only [getAlertsRef, storeContents]
    rw [readRef_append_self]

/-- Witness for C6 (amended) at a store whose internal alert array is the
cell at address 0 of a one-cell heap. -/
theorem getAlerts_copy_only_witness :
    storeContents (pushRef (getAlertsRef alertRefStore).2
        (getAlertsRef alertRefStore).1 alertProbe)
      = storeContents alertRefStore :=
  (getAlerts_copy_only alertRefStore alertProbe (by decide)).1

end CyberSentinel
